import Mathlib

/-!
# Verification of the mini-cdp Unify + Segment core

This development shallowly embeds the Express/Postgres server of the
mini-cdp repository (the `/identify`, `/track`, `/audiences`,
`/audiences/:id/rebuild` routes together with the SQL schema of the
README) and proves or refutes the specification's claims about it.

Conventions of the embedding:
* JSON request bodies are modelled by `JsonVal` (string, number,
  boolean, null, object), the closed set of value shapes the design
  notes prescribe for trait/property bags.
* Timestamps are rationals (milliseconds since the epoch, the unit of
  `Date.now()`); Postgres `numeric` amounts are rationals.
* The JavaScript `Number()` coercion is modelled on decimal literal
  forms (sign, digits, fraction); `none` stands for `NaN`.
* The database is a `Store` record; the Postgres `UNIQUE` constraints
  on `profiles.email` / `profiles.user_id` are modelled by insert and
  update operations that fail instead of committing a duplicate, and a
  failing route (the `catch` + `ROLLBACK` handler) leaves the store
  unchanged and reports `internalError`.
-/

namespace MiniCDP

/-- JSON-style values: the value shapes of trait / property / definition
bags (string, number, boolean, null, nested mapping). -/
inductive JsonVal where
  | str (s : String)
  | num (q : ℚ)
  | bool (b : Bool)
  | null
  | obj (fields : List (String × JsonVal))

/-- JavaScript truthiness of a JSON value (`x ? … : …`, `x || d`). -/
def jsTruthy : JsonVal → Bool
  | .null => false
  | .bool b => b
  | .num q => decide (q ≠ 0)
  | .str s => !s.data.isEmpty
  | .obj _ => true

/-- JavaScript `x || d` on a possibly-absent property value: an absent
or falsy value yields the default. -/
def jsOr (v : Option JsonVal) (d : JsonVal) : JsonVal :=
  match v with
  | some x => if jsTruthy x then x else d
  | none => d

/-- Drop leading and trailing whitespace from a character list (the
effect of JavaScript `String.prototype.trim`). -/
def trimChars (cs : List Char) : List Char :=
  (((cs.dropWhile Char.isWhitespace).reverse).dropWhile Char.isWhitespace).reverse

/-- Numeric value of a digit list, most significant first. -/
def digitsVal (cs : List Char) : ℚ :=
  cs.foldl (fun a c => 10 * a + ((c.toNat - 48 : ℕ) : ℚ)) 0

/-- Parse an unsigned decimal literal (`digits`, `digits.digits`,
`.digits`, `digits.`); `none` is `NaN`. -/
def parseUnsigned (cs : List Char) : Option ℚ :=
  let ds := cs.takeWhile Char.isDigit
  let rest := cs.dropWhile Char.isDigit
  match rest with
  | [] => if ds.isEmpty then none else some (digitsVal ds)
  | '.' :: fs =>
      if ds.isEmpty && fs.isEmpty then none
      else if fs.all Char.isDigit then
        some (digitsVal ds + digitsVal fs / (10 : ℚ) ^ fs.length)
      else none
  | _ => none

/-- Parse a signed decimal literal from a trimmed character list; the
empty string coerces to `0` as in JavaScript. -/
def parseSigned (cs : List Char) : Option ℚ :=
  match cs with
  | [] => some 0
  | '-' :: rest => (parseUnsigned rest).map (fun q => -q)
  | '+' :: rest => parseUnsigned rest
  | _ => parseUnsigned cs

/-- The JavaScript `Number()` coercion on JSON values, modelled on the
decimal forms this API exchanges (hexadecimal and exponent string forms
are outside the model); `none` stands for `NaN`. -/
def jsNumber : JsonVal → Option ℚ
  | .null => some 0
  | .bool b => some (if b then 1 else 0)
  | .num q => some q
  | .str s => parseSigned (trimChars s.data)
  | .obj _ => none

/-- First field of an object bag with the given key (`bag.key`). -/
def lookupField (fs : List (String × JsonVal)) (k : String) : Option JsonVal :=
  (fs.find? (fun kv => kv.1 == k)).map (fun kv => kv.2)

/-- Source helper `isNonEmptyString`: the value is a string whose trim
has positive length, i.e. it has a non-whitespace character. -/
def isNonEmptyString : Option String → Bool
  | some s => s.data.any (fun c => !c.isWhitespace)
  | none => false

/-- Expression `isNonEmptyString(x) ? x : null` — the normalisation applied to
every identifier before it is stored or inserted. -/
def normId (v : Option String) : Option String :=
  if isNonEmptyString v then v else none

/-- Expression `(isNonEmptyString(user_id) && user_id) || (… email …) || (… anonymous_id …) || null`:
the `primary_identifier` chosen at profile creation. -/
def firstNonEmpty (user_id email anonymous_id : Option String) : Option String :=
  if isNonEmptyString user_id then user_id
  else if isNonEmptyString email then email
  else if isNonEmptyString anonymous_id then anonymous_id
  else none

/-- SQL `COALESCE(a, b)`. -/
def coalesce (a b : Option String) : Option String :=
  match a with
  | some v => some v
  | none => b

/-- Expression `x && typeof x === "object" ? x : \x7b\x7d` — the coercion applied to the
`traits` and `properties` request fields. -/
def coerceObjFields : Option JsonVal → List (String × JsonVal)
  | some (.obj fs) => fs
  | _ => []

/-- Spread merge of trait bags: keys of `old` keep their position but take the
new value when also present in `new`; remaining keys of `new` follow. -/
def mergeTraits (old new : List (String × JsonVal)) : List (String × JsonVal) :=
  old.map (fun kv =>
    match lookupField new kv.1 with
    | some v => (kv.1, v)
    | none => kv)
  ++ new.filter (fun kv => (lookupField old kv.1).isNone)

/-- A row of the `profiles` table. -/
structure Profile where
  pid : Nat
  primary_identifier : Option String
  email : Option String
  user_id : Option String
  anonymous_id : Option String
  traits : List (String × JsonVal)
  first_seen_at : ℚ
  last_seen_at : ℚ
  total_orders : Nat
  total_spend : ℚ

/-- A row of the `events` table. -/
structure Event where
  eid : Nat
  profile_id : Option Nat
  user_id : Option String
  anonymous_id : Option String
  event_type : String
  properties : List (String × JsonVal)
  occurred_at : ℚ
  created_at : ℚ

/-- A row of the `audiences` table. -/
structure Audience where
  aid : Nat
  name : String
  definition : JsonVal
  last_built_at : Option ℚ

/-- The transactional store: the four tables of the schema plus the
id sequences. `members` rows are (audience id, profile id, added_at). -/
structure Store where
  profiles : List Profile
  events : List Event
  audiences : List Audience
  members : List (Nat × Nat × ℚ)
  nextProfileId : Nat
  nextEventId : Nat
  nextAudienceId : Nat

/-- The empty database. -/
def emptyStore : Store :=
  { profiles := [], events := [], audiences := [], members := []
    nextProfileId := 0, nextEventId := 0, nextAudienceId := 0 }

/-- Errors a route reports (HTTP 400/404/500 bodies of the source). -/
inductive ApiError where
  | missingIdentifier
  | eventTypeRequired
  | nameRequired
  | definitionRequired
  | notFound
  | internalError
deriving DecidableEq

/-- Query `SELECT * FROM profiles WHERE user_id = $1` (first matching row). -/
def findByUserId (s : Store) (v : String) : Option Profile :=
  s.profiles.find? (fun p => p.user_id == some v)

/-- Query `SELECT * FROM profiles WHERE email = $1` (first matching row). -/
def findByEmail (s : Store) (v : String) : Option Profile :=
  s.profiles.find? (fun p => p.email == some v)

/-- Query `SELECT * FROM profiles WHERE anonymous_id = $1` (first matching row). -/
def findByAnonymousId (s : Store) (v : String) : Option Profile :=
  s.profiles.find? (fun p => p.anonymous_id == some v)

/-- One guarded lookup block of the cascade: the query runs only when
the inbound value is a non-empty string. -/
def gatedLookup (find : Store → String → Option Profile) (s : Store)
    (v : Option String) : Option Profile :=
  match v with
  | some x => if isNonEmptyString (some x) then find s x else none
  | none => none

/-- The lookup cascade shared verbatim by `/identify` and `/track`:
by `user_id`, else by `email`, else by `anonymous_id`, each attempted
only when the inbound value is a non-empty string. -/
def resolveProfile (s : Store) (user_id email anonymous_id : Option String) :
    Option Profile :=
  match gatedLookup findByUserId s user_id with
  | some p => some p
  | none =>
    match gatedLookup findByEmail s email with
    | some p => some p
    | none => gatedLookup findByAnonymousId s anonymous_id

/-- Would inserting a row with these (already normalised) identifiers
violate the `UNIQUE` constraints on `email` / `user_id`? (`NULL`s never
conflict; `anonymous_id` carries no constraint.) -/
def violatesUniqueInsert (ps : List Profile) (em uid : Option String) : Bool :=
  ps.any (fun q => (em.isSome && q.email == em) || (uid.isSome && q.user_id == uid))

/-- Would updating row `pid` to these identifiers collide with a
different row under the `UNIQUE` constraints? -/
def violatesUniqueUpdate (ps : List Profile) (pid : Nat) (em uid : Option String) : Bool :=
  ps.any (fun q =>
    (q.pid != pid) &&
      ((em.isSome && q.email == em) || (uid.isSome && q.user_id == uid)))

/-- A fresh `profiles` row as both creation sites build it. -/
def mkNewProfile (pid : Nat) (primary em uid anon : Option String)
    (traits : List (String × JsonVal)) (now : ℚ) : Profile :=
  { pid := pid, primary_identifier := primary, email := em, user_id := uid
    anonymous_id := anon, traits := traits, first_seen_at := now
    last_seen_at := now, total_orders := 0, total_spend := 0 }

/-- Statement `INSERT INTO profiles … RETURNING *`, subject to the unique
constraints (an error aborts the surrounding transaction). -/
def insertProfile (s : Store) (primary em uid anon : Option String)
    (traits : List (String × JsonVal)) (now : ℚ) :
    Except Unit (Store × Profile) :=
  if violatesUniqueInsert s.profiles em uid then .error ()
  else
    let p := mkNewProfile s.nextProfileId primary em uid anon traits now
    .ok ({ s with profiles := s.profiles ++ [p], nextProfileId := s.nextProfileId + 1 }, p)

/-- Statement `UPDATE profiles SET … WHERE id = pid` applied to the stored rows. -/
def replaceProfileWith (ps : List Profile) (pid : Nat) (f : Profile → Profile) :
    List Profile :=
  ps.map (fun q => if q.pid == pid then f q else q)

/-- Request body of `POST /identify`. -/
structure IdentifyInput where
  email : Option String
  user_id : Option String
  anonymous_id : Option String
  traits : Option JsonVal

/-- The `UPDATE profiles SET email = COALESCE($1, email), … WHERE id = …`
of `/identify`, as a function of the stored row (`q`); the merged trait
bag is computed in JavaScript from the row read earlier (`pRead`). -/
def applyIdentifyUpdate (inp : IdentifyInput) (now : ℚ) (pRead q : Profile) : Profile :=
  { q with
    email := coalesce (normId inp.email) q.email
    user_id := coalesce (normId inp.user_id) q.user_id
    anonymous_id := coalesce (normId inp.anonymous_id) q.anonymous_id
    traits := mergeTraits pRead.traits (coerceObjFields inp.traits)
    last_seen_at := now
    primary_identifier :=
      coalesce q.primary_identifier
        (firstNonEmpty inp.user_id inp.email inp.anonymous_id) }

/-- Route `POST /identify`: validate, resolve by precedence, then create or
update inside one transaction; any store conflict rolls back and is
reported as an internal error. -/
def identify (now : ℚ) (s : Store) (inp : IdentifyInput) :
    Except ApiError (Store × Profile) :=
  if !(isNonEmptyString inp.email || isNonEmptyString inp.user_id
      || isNonEmptyString inp.anonymous_id) then
    .error .missingIdentifier
  else
    match resolveProfile s inp.user_id inp.email inp.anonymous_id with
    | none =>
      match insertProfile s (firstNonEmpty inp.user_id inp.email inp.anonymous_id)
          (normId inp.email) (normId inp.user_id) (normId inp.anonymous_id)
          (coerceObjFields inp.traits) now with
      | .error _ => .error .internalError
      | .ok (s', p) => .ok (s', p)
    | some p =>
      let p' := applyIdentifyUpdate inp now p p
      if violatesUniqueUpdate s.profiles p.pid p'.email p'.user_id then
        .error .internalError
      else
        .ok ({ s with profiles := replaceProfileWith s.profiles p.pid (applyIdentifyUpdate inp now p) }, p')

/-- Request body of `POST /track` (`occurred_at` models a present,
parseable date value; `none` lets ingestion time apply). -/
structure TrackInput where
  event_type : Option String
  email : Option String
  user_id : Option String
  anonymous_id : Option String
  properties : Option JsonVal
  occurred_at : Option ℚ

/-- The profile-resolution phase of `/track`: reuse the lookup cascade,
and when nothing matched but an identifier is present create a minimal
profile with empty traits. -/
def resolveOrCreate (now : ℚ) (s : Store) (user_id email anonymous_id : Option String) :
    Except Unit (Store × Option Profile) :=
  match resolveProfile s user_id email anonymous_id with
  | some p => .ok (s, some p)
  | none =>
    if isNonEmptyString user_id || isNonEmptyString email
        || isNonEmptyString anonymous_id then
      match insertProfile s (firstNonEmpty user_id email anonymous_id)
          (normId email) (normId user_id) (normId anonymous_id) [] now with
      | .error _ => .error ()
      | .ok (s', p) => .ok (s', some p)
    else .ok (s, none)

/-- Expression `Number(props.amount || 0)` — the amount a purchase event credits. -/
def amountOf (props : List (String × JsonVal)) : Option ℚ :=
  jsNumber (jsOr (lookupField props "amount") (.num 0))

/-- Comparison `event_type.toLowerCase() === "purchase"` (ASCII lowering, as the
comparand is ASCII). -/
def isPurchaseType (et : String) : Bool :=
  et.data.map Char.toLower == "purchase".data

/-- The `UPDATE … SET last_seen_at = GREATEST(last_seen_at, $1)` used by
the two non-crediting aggregate branches. -/
def touchProfile (occ : ℚ) (q : Profile) : Profile :=
  { q with last_seen_at := max q.last_seen_at occ }

/-- The crediting `UPDATE … SET total_orders = total_orders + 1,
total_spend = total_spend + $1, last_seen_at = GREATEST(last_seen_at, $2)`. -/
def creditPurchase (amount occ : ℚ) (q : Profile) : Profile :=
  { q with
    total_orders := q.total_orders + 1
    total_spend := q.total_spend + amount
    last_seen_at := max q.last_seen_at occ }

/-- Route `POST /track`: validate `event_type`, resolve/create a profile,
append the event, then update the matched profile's aggregates. -/
def track (now : ℚ) (s : Store) (inp : TrackInput) :
    Except ApiError (Store × Event × Option Profile) :=
  match inp.event_type with
  | none => .error .eventTypeRequired
  | some et =>
    if !(isNonEmptyString (some et)) then .error .eventTypeRequired
    else
      match resolveOrCreate now s inp.user_id inp.email inp.anonymous_id with
      | .error _ => .error .internalError
      | .ok (s₁, pOpt) =>
        let occ := inp.occurred_at.getD now
        let props := coerceObjFields inp.properties
        let ev : Event :=
          { eid := s₁.nextEventId
            profile_id := pOpt.map (fun p => p.pid)
            user_id := normId inp.user_id
            anonymous_id := normId inp.anonymous_id
            event_type := et
            properties := props
            occurred_at := occ
            created_at := now }
        let s₂ := { s₁ with events := ev :: s₁.events, nextEventId := s₁.nextEventId + 1 }
        match pOpt with
        | none => .ok (s₂, ev, none)
        | some p =>
          if isPurchaseType et then
            match amountOf props with
            | some amount =>
              if 0 < amount then
                .ok ({ s₂ with profiles := replaceProfileWith s₂.profiles p.pid (creditPurchase amount occ) },
                  ev, some (creditPurchase amount occ p))
              else
                .ok ({ s₂ with profiles := replaceProfileWith s₂.profiles p.pid (touchProfile occ) },
                  ev, some (touchProfile occ p))
            | none =>
              .ok ({ s₂ with profiles := replaceProfileWith s₂.profiles p.pid (touchProfile occ) },
                ev, some (touchProfile occ p))
          else
            .ok ({ s₂ with profiles := replaceProfileWith s₂.profiles p.pid (touchProfile occ) },
              ev, some (touchProfile occ p))

/-- Request body of `POST /audiences`. -/
structure CreateAudienceInput where
  name : Option String
  definition : Option JsonVal

/-- Test `definition && typeof definition === "object"` for a JSON body value
(`null` is caught by the truthiness test). -/
def isJsObject : Option JsonVal → Bool
  | some (.obj _) => true
  | _ => false

/-- Route `POST /audiences`: require a non-empty `name` and an object-typed
`definition`; no further schema validation is performed. -/
def createAudience (s : Store) (inp : CreateAudienceInput) :
    Except ApiError (Store × Audience) :=
  if !(isNonEmptyString inp.name) then .error .nameRequired
  else
    match inp.definition with
    | some (.obj fs) =>
      let a : Audience :=
        { aid := s.nextAudienceId, name := inp.name.getD ""
          definition := .obj fs, last_built_at := none }
      .ok ({ s with audiences := s.audiences ++ [a], nextAudienceId := s.nextAudienceId + 1 }, a)
    | _ => .error .definitionRequired

/-- Query `SELECT definition FROM audiences WHERE id = $1` (first row). -/
def findAudience (s : Store) (aid : Nat) : Option Audience :=
  s.audiences.find? (fun a => a.aid == aid)

/-- The fields of `definition || {}`; property access on a non-object
value yields no fields. -/
def defFields : JsonVal → List (String × JsonVal)
  | .obj fs => fs
  | _ => []

/-- Predicate `p.total_spend >= $2` where the comparand may be `NaN` (`none`):
Postgres orders `numeric NaN` above every number, so no finite spend
passes. -/
def spendMeets (spend : ℚ) (minSpend : Option ℚ) : Bool :=
  match minSpend with
  | some m => decide (m ≤ spend)
  | none => false

/-- Maximum of a list of rationals (`MAX(occurred_at)`); `none` on the
empty group. -/
def listMax : List ℚ → Option ℚ
  | [] => none
  | x :: xs =>
    match listMax xs with
    | none => some x
    | some m => some (max x m)

/-- Aggregate `MAX(occurred_at) … GROUP BY profile_id` for one profile. -/
def lastEventAt (evs : List Event) (pid : Nat) : Option ℚ :=
  listMax ((evs.filter (fun e => e.profile_id == some pid)).map (fun e => e.occurred_at))

/-- Does a profile qualify for the rebuilt audience: spend at least the
threshold, and a last event at or after the cutoff (`last_event_at IS
NOT NULL AND last_event_at >= $3`)? -/
def qualifies (evs : List Event) (minSpend : Option ℚ) (cutoff : ℚ) (p : Profile) : Bool :=
  spendMeets p.total_spend minSpend &&
    (match lastEventAt evs p.pid with
     | some t => decide (cutoff ≤ t)
     | none => false)

/-- Route `POST /audiences/:id/rebuild`: read the definition, coerce its two
fields with `Number(… || default)`, delete the audience's members, and
insert the freshly computed set; an unparseable day count (`NaN`) makes
`new Date(NaN)` unserialisable and the transaction fails. -/
def rebuildAudience (now : ℚ) (s : Store) (aid : Nat) :
    Except ApiError (Store × Nat) :=
  match findAudience s aid with
  | none => .error .notFound
  | some a =>
    let fs := defFields a.definition
    let minSpend := jsNumber (jsOr (lookupField fs "min_total_spend") (.num 0))
    let days := jsNumber (jsOr (lookupField fs "days_since_last_event") (.num 36500))
    match days with
    | none => .error .internalError
    | some d =>
      let cutoff := now - d * 86400000
      let newMembers := s.profiles.filter (qualifies s.events minSpend cutoff)
      let s' :=
        { s with
          members := s.members.filter (fun m => m.1 != aid)
            ++ newMembers.map (fun p => (aid, p.pid, now))
          audiences := s.audiences.map (fun b =>
            if b.aid == aid then { b with last_built_at := some now } else b) }
      .ok (s', newMembers.length)

/-- Profile ids currently members of an audience. -/
def membersOf (s : Store) (aid : Nat) : List Nat :=
  (s.members.filter (fun m => m.1 == aid)).map (fun m => m.2.1)

/-- First stored profile with the given id. -/
def profileById (s : Store) (pid : Nat) : Option Profile :=
  s.profiles.find? (fun p => p.pid == pid)

/-- One inbound logical operation of the ingestion interface. -/
inductive Op where
  | identifyOp (inp : IdentifyInput)
  | trackOp (inp : TrackInput)

/-- Whether an operation is a trait-update (identify) request. -/
def Op.isIdentify : Op → Bool
  | .identifyOp _ => true
  | .trackOp _ => false

/-- Committed effect of one operation on the store: a failing request
rolls its transaction back and leaves the store unchanged. -/
def applyOp (now : ℚ) (s : Store) : Op → Store
  | .identifyOp i =>
    match identify now s i with
    | .ok r => r.1
    | .error _ => s
  | .trackOp i =>
    match track now s i with
    | .ok r => r.1
    | .error _ => s

/-- Which of the two racing transactions performs the next step. -/
inductive RaceStep where
  | one
  | two
deriving DecidableEq

/-- Whether a schedule entry belongs to the first transaction. -/
def RaceStep.isOne : RaceStep → Bool
  | .one => true
  | .two => false

/-- Progress of one in-flight `/identify` transaction: not yet started,
lookup done (with the row it saw), or finished (`committed` tells
whether it committed or rolled back on a conflict). -/
inductive Phase where
  | start
  | looked (found : Option Profile)
  | done (committed : Bool)

/-- Whether a transaction has finished. -/
def Phase.isDone : Phase → Bool
  | .done _ => true
  | _ => false

/-- Whether a transaction finished by rolling back on a conflict. -/
def Phase.isConflict : Phase → Bool
  | .done committed => !committed
  | _ => false

/-- The request body both racing calls carry: the same new email. -/
def raceInput (e : String) : IdentifyInput :=
  { email := some e, user_id := none, anonymous_id := none, traits := none }

/-- One step of an in-flight `/identify email` transaction against the
committed store: the first step is the lookup cascade, the second is
the create-or-update decided by the row the lookup saw; the unique
constraint turns a duplicate insert into a rolled-back conflict.  This
is the check-then-act interleaving model for two concurrent requests
under the schema's unique indexes. -/
def raceTxnStep (now : ℚ) (e : String) (st : Store) : Phase → Store × Phase
  | .start => (st, .looked (resolveProfile st none (some e) none))
  | .looked none =>
    match insertProfile st (firstNonEmpty none (some e) none)
        (normId (some e)) (normId none) (normId none)
        (coerceObjFields none) now with
    | .error _ => (st, .done false)
    | .ok (st', _) => (st', .done true)
  | .looked (some p) =>
    let p' := applyIdentifyUpdate (raceInput e) now p p
    if violatesUniqueUpdate st.profiles p.pid p'.email p'.user_id then
      (st, .done false)
    else
      ({ st with profiles := replaceProfileWith st.profiles p.pid (applyIdentifyUpdate (raceInput e) now p) },
        .done true)
  | .done committed => (st, .done committed)

/-- Joint state of the two racing transactions and the committed store. -/
structure RaceState where
  store : Store
  t1 : Phase
  t2 : Phase

/-- Both transactions poised to run against an empty store. -/
def raceInit : RaceState :=
  { store := emptyStore, t1 := .start, t2 := .start }

/-- Let the scheduled transaction take its next step. -/
def raceStep (now : ℚ) (e : String) (rs : RaceState) : RaceStep → RaceState
  | .one =>
    let r := raceTxnStep now e rs.store rs.t1
    { rs with store := r.1, t1 := r.2 }
  | .two =>
    let r := raceTxnStep now e rs.store rs.t2
    { rs with store := r.1, t2 := r.2 }

/-- Run a schedule of interleaved steps. -/
def raceRun (now : ℚ) (e : String) : List RaceStep → RaceState → RaceState
  | [], rs => rs
  | stp :: rest, rs => raceRun now e rest (raceStep now e rs stp)

/-- Number of steps a schedule grants the first transaction. -/
def countOnes : List RaceStep → Nat
  | [] => 0
  | .one :: rest => countOnes rest + 1
  | .two :: rest => countOnes rest

/-- A complete interleaving of the two two-step transactions: four
steps, two per transaction. -/
def validSchedule (sched : List RaceStep) : Prop :=
  sched.length = 4 ∧ countOnes sched = 2

/-- Number of stored profiles owning the given email. -/
def countEmail (st : Store) (e : String) : Nat :=
  (st.profiles.filter (fun p => p.email == some e)).length

/-- The aggregate-credit condition of the track route: a purchase-typed
event whose coerced amount is a number strictly greater than zero. -/
def purchaseCredited (et : String) (props : List (String × JsonVal)) : Bool :=
  isPurchaseType et &&
    (match amountOf props with
     | some amount => decide (0 < amount)
     | none => false)

/-- Fixture: a purchase track request for a fresh user. -/
def c1Input : TrackInput :=
  { event_type := some "Purchase", email := none, user_id := some "u7"
    anonymous_id := none
    properties := some (.obj [("amount", .num (5999 / 100))])
    occurred_at := some 5 }

/-- Fixture: the profile the purchase request creates. -/
def c1P : Profile := mkNewProfile 0 (some "u7") none (some "u7") none [] 3

/-- Fixture: the store after the purchase request created its profile. -/
def c1S1 : Store :=
  { profiles := [c1P], events := [], audiences := [], members := []
    nextProfileId := 1, nextEventId := 0, nextAudienceId := 0 }

/-- Fixture: a profile reachable by user id u1 (and by anonymous id a1). -/
def c3PU : Profile :=
  { pid := 0, primary_identifier := some "u1", email := some "pu@x"
    user_id := some "u1", anonymous_id := some "a1", traits := []
    first_seen_at := 0, last_seen_at := 0, total_orders := 0, total_spend := 0 }

/-- Fixture: a profile reachable by email e@x. -/
def c3PE : Profile :=
  { pid := 1, primary_identifier := some "e@x", email := some "e@x"
    user_id := none, anonymous_id := some "a1", traits := []
    first_seen_at := 0, last_seen_at := 0, total_orders := 0, total_spend := 0 }

/-- Fixture: a profile reachable only by anonymous id a1. -/
def c3PA : Profile :=
  { pid := 2, primary_identifier := some "a1", email := none
    user_id := none, anonymous_id := some "a1", traits := []
    first_seen_at := 0, last_seen_at := 0, total_orders := 0, total_spend := 0 }

/-- Fixture: a store exercising every step of the lookup precedence. -/
def c3S : Store :=
  { profiles := [c3PU, c3PE, c3PA], events := [], audiences := [], members := []
    nextProfileId := 3, nextEventId := 0, nextAudienceId := 0 }

/-- Fixture: a profile that already owns both a user id and an email. -/
def c4P : Profile :=
  { pid := 0, primary_identifier := some "u1", email := some "a@x"
    user_id := some "u1", anonymous_id := none, traits := []
    first_seen_at := 0, last_seen_at := 0, total_orders := 0, total_spend := 0 }

/-- Fixture: the store holding only that profile. -/
def c4S : Store :=
  { profiles := [c4P], events := [], audiences := [], members := []
    nextProfileId := 1, nextEventId := 0, nextAudienceId := 0 }

/-- Fixture: an identify request matching by user id but carrying a
different email. -/
def c4In : IdentifyInput :=
  { email := some "b@y", user_id := some "u1", anonymous_id := none, traits := none }

/-- Fixture: a profile with a user id and no email yet. -/
def c4WP : Profile :=
  { pid := 0, primary_identifier := some "u9", email := none
    user_id := some "u9", anonymous_id := none, traits := []
    first_seen_at := 0, last_seen_at := 0, total_orders := 0, total_spend := 0 }

/-- Fixture: the store holding only that profile. -/
def c4WS : Store :=
  { profiles := [c4WP], events := [], audiences := [], members := []
    nextProfileId := 1, nextEventId := 0, nextAudienceId := 0 }

/-- Fixture: an identify request backfilling an email onto that profile. -/
def c4WIn : IdentifyInput :=
  { email := some "w@x", user_id := some "u9", anonymous_id := none, traits := none }

/-- Fixture: the store after the backfilling update. -/
def c4WS' : Store :=
  { c4WS with profiles := replaceProfileWith c4WS.profiles 0 (applyIdentifyUpdate c4WIn 4 c4WP) }

/-- Fixture: a track request carrying no identifier at all. -/
def c6In : TrackInput :=
  { event_type := some "page_view", email := none, user_id := none
    anonymous_id := none, properties := none, occurred_at := none }

/-- Fixture: a page view for user u1 carrying a caller-supplied
occurred_at far in the future of the ingestion clock. -/
def c5Track : TrackInput :=
  { event_type := some "page_view", email := none, user_id := some "u1"
    anonymous_id := none, properties := none, occurred_at := some 99 }

/-- Fixture: a later identify request for the same user. -/
def c5Id : IdentifyInput :=
  { email := none, user_id := some "u1", anonymous_id := none, traits := none }

/-- Fixture: the store after the future-dated page view at time 0. -/
def c5S1 : Store := applyOp 0 emptyStore (.trackOp c5Track)

/-- Fixture: the store after the identify call at time 1. -/
def c5S2 : Store := applyOp 1 c5S1 (.identifyOp c5Id)

/-- Fixture: the stored profile after the future-dated page view. -/
def c5P1 : Profile := touchProfile 99 (mkNewProfile 0 (some "u1") none (some "u1") none [] 0)

/-- Fixture: an evaluation instant (100 days into the epoch, in
milliseconds). -/
def c2Now : ℚ := 8640000000000

/-- Fixture: a profile with spend 100. -/
def c2P : Profile :=
  { pid := 0, primary_identifier := some "u1", email := none
    user_id := some "u1", anonymous_id := none, traits := []
    first_seen_at := 0, last_seen_at := 0, total_orders := 1, total_spend := 100 }

/-- Fixture: an event of that profile one day before the evaluation
instant. -/
def c2E : Event :=
  { eid := 0, profile_id := some 0, user_id := some "u1", anonymous_id := none
    event_type := "page_view", properties := [], occurred_at := c2Now - 86400000
    created_at := 0 }

/-- Fixture: an audience whose definition supplies a zero day count. -/
def c2A : Audience :=
  { aid := 1, name := "zero-days"
    definition := .obj [("min_total_spend", .num 0), ("days_since_last_event", .num 0)]
    last_built_at := none }

/-- Fixture: the store for the zero-day rebuild. -/
def c2S : Store :=
  { profiles := [c2P], events := [c2E], audiences := [c2A], members := []
    nextProfileId := 1, nextEventId := 1, nextAudienceId := 2 }

/-- Fixture: an audience with well-formed nonzero schema fields. -/
def c2WA : Audience :=
  { aid := 1, name := "high-value"
    definition := .obj [("min_total_spend", .num 50), ("days_since_last_event", .num 30)]
    last_built_at := none }

/-- Fixture: the store for the well-formed rebuild. -/
def c2WS : Store :=
  { profiles := [c2P], events := [c2E], audiences := [c2WA], members := []
    nextProfileId := 1, nextEventId := 1, nextAudienceId := 2 }

/-- Fixture: an identify request whose traits payload is a string, not
an object. -/
def c8In : IdentifyInput :=
  { email := none, user_id := some "u1", anonymous_id := none
    traits := some (.str "oops") }

/-- Fixture: an audience whose definition is an object but does not
parse to the documented schema (a garbage day count). -/
def c8AIn : CreateAudienceInput :=
  { name := some "A", definition := some (.obj [("days_since_last_event", .str "garbage")]) }

/-- Fixture: a profile owning user id u1 and no email. -/
def c7P1 : Profile :=
  { pid := 0, primary_identifier := some "u1", email := none
    user_id := some "u1", anonymous_id := none, traits := []
    first_seen_at := 0, last_seen_at := 0, total_orders := 0, total_spend := 0 }

/-- Fixture: a different profile already owning the email a@x. -/
def c7P2 : Profile :=
  { pid := 1, primary_identifier := some "a@x", email := some "a@x"
    user_id := some "u2", anonymous_id := none, traits := []
    first_seen_at := 0, last_seen_at := 0, total_orders := 0, total_spend := 0 }

/-- Fixture: the store holding both profiles. -/
def c7S : Store :=
  { profiles := [c7P1, c7P2], events := [], audiences := [], members := []
    nextProfileId := 2, nextEventId := 0, nextAudienceId := 0 }

/-- Fixture: an identify request that matches u1 but supplies u2's
email, making the update collide with the unique constraint. -/
def c7In : IdentifyInput :=
  { email := some "a@x", user_id := some "u1", anonymous_id := none, traits := none }

end MiniCDP

namespace MiniCDP

/-- A profile update of the track route keeps the row's id. -/
theorem touchProfile_pid (occ : ℚ) (q : Profile) : (touchProfile occ q).pid = q.pid := rfl

/-- The crediting update keeps the row's id. -/
theorem creditPurchase_pid (amount occ : ℚ) (q : Profile) :
    (creditPurchase amount occ q).pid = q.pid := rfl

/-- Looking a profile up after an in-place table update finds the
updated image of the row the lookup would have found before, provided
the update keeps row ids. -/
theorem find?_replaceProfileWith (ps : List Profile) (t : Nat) (f : Profile → Profile)
    (pred : Profile → Bool)
    (hpred : ∀ q, pred (f q) = pred q) :
    (replaceProfileWith ps t f).find? pred
      = (ps.find? pred).map (fun q => if q.pid == t then f q else q) := by
  unfold replaceProfileWith
  rw [List.find?_map]
  have hcomp : (pred ∘ fun q => if q.pid == t then f q else q) = pred := by
    funext q
    by_cases h : q.pid = t
    · simp [h, hpred]
    · simp [h]
  rw [hcomp]

/-- C1: for every Track call that resolves or creates a profile, the
event is appended to the event log unconditionally; exactly when the
event type is case-insensitively "purchase" and the property bag's
amount is a number strictly greater than zero, the profile's
total_orders grows by one and total_spend by that amount, and on every
other event both aggregates are unchanged. -/
theorem C1_track_purchase_aggregate (now : ℚ) (s : Store) (inp : TrackInput)
    (et : String) (s₁ : Store) (p : Profile)
    (htype : inp.event_type = some et)
    (hne : isNonEmptyString (some et) = true)
    (hres : resolveOrCreate now s inp.user_id inp.email inp.anonymous_id = .ok (s₁, some p)) :
    ∃ s' ev p', track now s inp = .ok (s', ev, some p') ∧
      s'.events = ev :: s₁.events ∧
      ev.event_type = et ∧
      ev.profile_id = some p.pid ∧
      ev.properties = coerceObjFields inp.properties ∧
      (purchaseCredited et (coerceObjFields inp.properties) = true →
        ∃ amount, amountOf (coerceObjFields inp.properties) = some amount ∧ 0 < amount ∧
          p'.total_orders = p.total_orders + 1 ∧
          p'.total_spend = p.total_spend + amount) ∧
      (purchaseCredited et (coerceObjFields inp.properties) = false →
        p'.total_orders = p.total_orders ∧ p'.total_spend = p.total_spend) ∧
      (p ∈ s₁.profiles → p' ∈ s'.profiles) := by
  unfold track
  rw [htype]
  simp only [hne, Bool.not_true, Bool.false_eq_true, if_false, hres]
  by_cases hp : isPurchaseType et
  · rw [if_pos hp]
    rcases ha : amountOf (coerceObjFields inp.properties) with _ | amount
    · refine ⟨_, _, _, rfl, rfl, rfl, rfl, rfl, ?_, ?_, ?_⟩
      · intro hc
        simp [purchaseCredited, ha] at hc
      · intro _
        exact ⟨rfl, rfl⟩
      · intro hmem
        refine List.mem_map.2 ⟨p, hmem, ?_⟩
        simp
    · simp only []
      by_cases hpos : 0 < amount
      · rw [if_pos hpos]
        refine ⟨_, _, _, rfl, rfl, rfl, rfl, rfl, ?_, ?_, ?_⟩
        · intro _
          exact ⟨amount, rfl, hpos, rfl, rfl⟩
        · intro hc
          simp [purchaseCredited, hp, ha, hpos] at hc
        · intro hmem
          refine List.mem_map.2 ⟨p, hmem, ?_⟩
          simp
      · rw [if_neg hpos]
        refine ⟨_, _, _, rfl, rfl, rfl, rfl, rfl, ?_, ?_, ?_⟩
        · intro hc
          simp [purchaseCredited, ha, hpos] at hc
        · intro _
          exact ⟨rfl, rfl⟩
        · intro hmem
          refine List.mem_map.2 ⟨p, hmem, ?_⟩
          simp
  · rw [if_neg hp]
    refine ⟨_, _, _, rfl, rfl, rfl, rfl, rfl, ?_, ?_, ?_⟩
    · intro hc
      simp [purchaseCredited, hp] at hc
    · intro _
      exact ⟨rfl, rfl⟩
    · intro hmem
      refine List.mem_map.2 ⟨p, hmem, ?_⟩
      simp

/-- A resolution that found nothing means every guarded lookup of the
cascade found nothing. -/
theorem resolve_none_gates (s : Store) (u e a : Option String)
    (h : resolveProfile s u e a = none) :
    gatedLookup findByUserId s u = none ∧ gatedLookup findByEmail s e = none ∧
      gatedLookup findByAnonymousId s a = none := by
  unfold resolveProfile at h
  rcases h1 : gatedLookup findByUserId s u with _ | p
  · rw [h1] at h
    rcases h2 : gatedLookup findByEmail s e with _ | p
    · rw [h2] at h
      exact ⟨rfl, rfl, h⟩
    · rw [h2] at h
      exact absurd h (by simp)
  · rw [h1] at h
    exact absurd h (by simp)

/-- A normalised identifier is present exactly when the inbound value
was a non-empty string, and is then that value. -/
theorem normId_eq_some (x : Option String) (v : String) (h : normId x = some v) :
    x = some v ∧ isNonEmptyString (some v) = true := by
  unfold normId at h
  by_cases hx : isNonEmptyString x = true
  · rw [if_pos hx] at h
    subst h
    exact ⟨rfl, hx⟩
  · rw [if_neg hx] at h
    exact absurd h (by simp)

/-- When the cascade found nothing, inserting the normalised
identifiers cannot violate the unique constraints: a conflicting row
would have been found by the corresponding guarded lookup. -/
theorem violatesUniqueInsert_of_resolve_none (s : Store) (u e a : Option String)
    (h : resolveProfile s u e a = none) :
    violatesUniqueInsert s.profiles (normId e) (normId u) = false := by
  obtain ⟨hu, he, -⟩ := resolve_none_gates s u e a h
  unfold violatesUniqueInsert
  rw [List.any_eq_false]
  intro q hq
  simp only [Bool.or_eq_true, Bool.and_eq_true, not_or, Option.isSome_iff_exists]
  constructor
  · rintro ⟨⟨v, hv⟩, hbeq⟩
    obtain ⟨hev, hnes⟩ := normId_eq_some e v hv
    rw [hev] at he
    unfold gatedLookup at he
    simp only [hnes, if_true] at he
    unfold findByEmail at he
    have := (List.find?_eq_none.1 he) q hq
    rw [hv] at hbeq
    exact this hbeq
  · rintro ⟨⟨v, hv⟩, hbeq⟩
    obtain ⟨huv, hnes⟩ := normId_eq_some u v hv
    rw [huv] at hu
    unfold gatedLookup at hu
    simp only [hnes, if_true] at hu
    unfold findByUserId at hu
    have := (List.find?_eq_none.1 hu) q hq
    rw [hv] at hbeq
    exact this hbeq

/-- When the cascade found nothing and an identifier is present, the
identify route creates exactly the profile both creation sites build. -/
theorem identify_creates (now : ℚ) (s : Store) (u e a : Option String)
    (traits : Option JsonVal)
    (hres : resolveProfile s u e a = none)
    (hids : (isNonEmptyString e || isNonEmptyString u || isNonEmptyString a) = true) :
    identify now s { email := e, user_id := u, anonymous_id := a, traits := traits }
      = .ok ({ s with
          profiles := s.profiles ++
            [mkNewProfile s.nextProfileId (firstNonEmpty u e a) (normId e) (normId u)
              (normId a) (coerceObjFields traits) now]
          nextProfileId := s.nextProfileId + 1 },
        mkNewProfile s.nextProfileId (firstNonEmpty u e a) (normId e) (normId u)
          (normId a) (coerceObjFields traits) now) := by
  unfold identify
  simp only [hids, Bool.not_true, Bool.false_eq_true, if_false]
  rw [hres]
  unfold insertProfile
  rw [violatesUniqueInsert_of_resolve_none s u e a hres]
  simp

/-- When the cascade found nothing and an identifier is present, the
track route's resolution phase creates the minimal profile. -/
theorem resolveOrCreate_creates (now : ℚ) (s : Store) (u e a : Option String)
    (hres : resolveProfile s u e a = none)
    (hids : (isNonEmptyString u || isNonEmptyString e || isNonEmptyString a) = true) :
    resolveOrCreate now s u e a
      = .ok ({ s with
          profiles := s.profiles ++
            [mkNewProfile s.nextProfileId (firstNonEmpty u e a) (normId e) (normId u)
              (normId a) [] now]
          nextProfileId := s.nextProfileId + 1 },
        some (mkNewProfile s.nextProfileId (firstNonEmpty u e a) (normId e) (normId u)
          (normId a) [] now)) := by
  unfold resolveOrCreate
  rw [hres]
  simp only [hids, if_true]
  unfold insertProfile
  rw [violatesUniqueInsert_of_resolve_none s u e a hres]
  simp

/-- C3: both Identify and Track resolve inbound identifiers by the
ordered precedence user_id, then email, then anonymous_id (each step
only for a present non-empty value), and when nothing matches but an
identifier is present they create a profile whose primary_identifier is
the first non-empty value in that order, storing every supplied
identifier. -/
theorem C3_resolution_precedence (now : ℚ) (s : Store)
    (u e a : Option String) (traits : Option JsonVal) :
    (∀ p, gatedLookup findByUserId s u = some p → resolveProfile s u e a = some p) ∧
    (gatedLookup findByUserId s u = none →
      ∀ p, gatedLookup findByEmail s e = some p → resolveProfile s u e a = some p) ∧
    (gatedLookup findByUserId s u = none → gatedLookup findByEmail s e = none →
      resolveProfile s u e a = gatedLookup findByAnonymousId s a) ∧
    (resolveProfile s u e a = none →
      (isNonEmptyString u || isNonEmptyString e || isNonEmptyString a) = true →
      (∃ s' p, identify now s { email := e, user_id := u, anonymous_id := a, traits := traits }
          = .ok (s', p) ∧
        p.primary_identifier = firstNonEmpty u e a ∧
        p.email = normId e ∧ p.user_id = normId u ∧ p.anonymous_id = normId a ∧
        p.first_seen_at = now ∧ p.last_seen_at = now ∧
        s'.profiles = s.profiles ++ [p]) ∧
      (∃ s' p, resolveOrCreate now s u e a = .ok (s', some p) ∧
        p.primary_identifier = firstNonEmpty u e a ∧
        p.email = normId e ∧ p.user_id = normId u ∧ p.anonymous_id = normId a ∧
        p.first_seen_at = now ∧ p.last_seen_at = now ∧
        s'.profiles = s.profiles ++ [p])) := by
  refine ⟨?_, ?_, ?_, ?_⟩
  · intro p hp
    unfold resolveProfile
    rw [hp]
  · intro hu p hp
    unfold resolveProfile
    rw [hu, hp]
  · intro hu he
    unfold resolveProfile
    rw [hu, he]
  · intro hres hids
    have hids' : (isNonEmptyString e || isNonEmptyString u || isNonEmptyString a) = true := by
      rcases he' : isNonEmptyString e <;> rcases hu' : isNonEmptyString u <;>
        rcases ha' : isNonEmptyString a <;> simp_all
    constructor
    · exact ⟨_, _, identify_creates now s u e a traits hres hids',
        rfl, rfl, rfl, rfl, rfl, rfl, rfl⟩
    · exact ⟨_, _, resolveOrCreate_creates now s u e a hres hids,
        rfl, rfl, rfl, rfl, rfl, rfl, rfl⟩

/-- C3 witness: user-id precedence beats a matching email, email beats
a matching anonymous id, the anonymous step is taken last, and a fresh
email-plus-anonymous submission creates a profile whose primary
identifier is the email. -/
theorem C3_resolution_precedence_witness :
    resolveProfile c3S (some "u1") (some "e@x") (some "a1") = some c3PU ∧
    resolveProfile c3S none (some "e@x") (some "a1") = some c3PE ∧
    resolveProfile c3S none none (some "a1") = gatedLookup findByAnonymousId c3S (some "a1") ∧
    (∃ s' p, identify 7 c3S
        { email := some "n@x", user_id := none, anonymous_id := some "an2", traits := none }
        = .ok (s', p) ∧
      p.primary_identifier = firstNonEmpty none (some "n@x") (some "an2") ∧
      p.email = normId (some "n@x") ∧ p.user_id = normId none ∧
      p.anonymous_id = normId (some "an2") ∧
      p.first_seen_at = 7 ∧ p.last_seen_at = 7 ∧
      s'.profiles = c3S.profiles ++ [p]) :=
  ⟨(C3_resolution_precedence 7 c3S (some "u1") (some "e@x") (some "a1") none).1 c3PU rfl,
   (C3_resolution_precedence 7 c3S none (some "e@x") (some "a1") none).2.1 rfl c3PE rfl,
   (C3_resolution_precedence 7 c3S none none (some "a1") none).2.2.1 rfl rfl,
   ((C3_resolution_precedence 7 c3S none (some "n@x") (some "an2") none).2.2.2
      rfl (by decide)).1⟩

/-- C4 counterexample: a profile matched by user id u1 already owns the
email a@x, yet an identify call supplying the different email b@y
overwrites it — both in the returned profile and in the stored row —
contradicting the claim that a non-null identifier is never
overwritten. -/
theorem C4_identifier_overwrite_counterexample :
    c4P.email = some "a@x" ∧
    (identify 5 c4S c4In).toOption.map (fun r => r.2.email) = some (some "b@y") ∧
    (identify 5 c4S c4In).toOption.bind (fun r => (profileById r.1 0).map Profile.email)
      = some (some "b@y") := by
  refine ⟨rfl, ?_, ?_⟩ <;> decide

/-- C4 amended: an identify update never clears a stored identifier — a
missing or empty inbound identifier leaves the stored value, and the
primary identifier is only backfilled when null — but a supplied
non-empty identifier overwrites the stored value (subject to the
unique constraints). -/
theorem C4_identifier_update_amended (now : ℚ) (s : Store) (inp : IdentifyInput)
    (p : Profile) (s' : Store) (p' : Profile)
    (hres : resolveProfile s inp.user_id inp.email inp.anonymous_id = some p)
    (hok : identify now s inp = .ok (s', p')) :
    (normId inp.email = none → p'.email = p.email) ∧
    (∀ v, normId inp.email = some v → p'.email = some v) ∧
    (p.email ≠ none → p'.email ≠ none) ∧
    (normId inp.user_id = none → p'.user_id = p.user_id) ∧
    (∀ v, normId inp.user_id = some v → p'.user_id = some v) ∧
    (p.user_id ≠ none → p'.user_id ≠ none) ∧
    (normId inp.anonymous_id = none → p'.anonymous_id = p.anonymous_id) ∧
    (∀ v, normId inp.anonymous_id = some v → p'.anonymous_id = some v) ∧
    (p.anonymous_id ≠ none → p'.anonymous_id ≠ none) ∧
    p'.primary_identifier =
      coalesce p.primary_identifier (firstNonEmpty inp.user_id inp.email inp.anonymous_id) := by
  unfold identify at hok
  split at hok
  · exact absurd hok (by simp)
  · rw [hres] at hok
    simp only [] at hok
    split at hok
    · exact absurd hok (by simp)
    · rw [Except.ok.injEq, Prod.mk.injEq] at hok
      obtain ⟨-, hp'⟩ := hok
      subst hp'
      unfold applyIdentifyUpdate
      refine ⟨?_, ?_, ?_, ?_, ?_, ?_, ?_, ?_, ?_, rfl⟩
      · intro h
        simp [coalesce, h]
      · intro v h
        simp [coalesce, h]
      · intro h
        rcases hn : normId inp.email with _ | v
        · simpa [coalesce, hn] using h
        · simp [coalesce, hn]
      · intro h
        simp [coalesce, h]
      · intro v h
        simp [coalesce, h]
      · intro h
        rcases hn : normId inp.user_id with _ | v
        · simpa [coalesce, hn] using h
        · simp [coalesce, hn]
      · intro h
        simp [coalesce, h]
      · intro v h
        simp [coalesce, h]
      · intro h
        rcases hn : normId inp.anonymous_id with _ | v
        · simpa [coalesce, hn] using h
        · simp [coalesce, hn]

/-- C4 amended witness: backfilling the email w@x onto a profile that
had none, matched by user id u9, keeps the user id and only fills the
previously-null email. -/
theorem C4_identifier_update_amended_witness :
    (normId c4WIn.email = none →
      (applyIdentifyUpdate c4WIn 4 c4WP c4WP).email = c4WP.email) ∧
    (∀ v, normId c4WIn.email = some v →
      (applyIdentifyUpdate c4WIn 4 c4WP c4WP).email = some v) ∧
    (c4WP.email ≠ none → (applyIdentifyUpdate c4WIn 4 c4WP c4WP).email ≠ none) ∧
    (normId c4WIn.user_id = none →
      (applyIdentifyUpdate c4WIn 4 c4WP c4WP).user_id = c4WP.user_id) ∧
    (∀ v, normId c4WIn.user_id = some v →
      (applyIdentifyUpdate c4WIn 4 c4WP c4WP).user_id = some v) ∧
    (c4WP.user_id ≠ none → (applyIdentifyUpdate c4WIn 4 c4WP c4WP).user_id ≠ none) ∧
    (normId c4WIn.anonymous_id = none →
      (applyIdentifyUpdate c4WIn 4 c4WP c4WP).anonymous_id = c4WP.anonymous_id) ∧
    (∀ v, normId c4WIn.anonymous_id = some v →
      (applyIdentifyUpdate c4WIn 4 c4WP c4WP).anonymous_id = some v) ∧
    (c4WP.anonymous_id ≠ none →
      (applyIdentifyUpdate c4WIn 4 c4WP c4WP).anonymous_id ≠ none) ∧
    (applyIdentifyUpdate c4WIn 4 c4WP c4WP).primary_identifier =
      coalesce c4WP.primary_identifier
        (firstNonEmpty c4WIn.user_id c4WIn.email c4WIn.anonymous_id) :=
  C4_identifier_update_amended 4 c4WS c4WIn c4WP c4WS'
    (applyIdentifyUpdate c4WIn 4 c4WP c4WP) rfl rfl

/-- A guarded lookup of the cascade finds nothing when the inbound
value is absent or empty. -/
theorem gatedLookup_none_of_empty (find : Store → String → Option Profile)
    (s : Store) (v : Option String) (h : isNonEmptyString v = false) :
    gatedLookup find s v = none := by
  rcases v with _ | x
  · rfl
  · simp [gatedLookup, h]

/-- C6 counterexample: a track call with no identifier at all and no
allow-anonymous flag does not fail with MissingIdentifier — it
succeeds, records the event with a null profile id, and returns no
profile, contradicting the claim that such a call fails unless a flag
is set (no such flag exists in the route). -/
theorem C6_missing_identifier_counterexample :
    isNonEmptyString c6In.email = false ∧
    isNonEmptyString c6In.user_id = false ∧
    isNonEmptyString c6In.anonymous_id = false ∧
    (track 2 emptyStore c6In).toOption.map
        (fun r => (r.2.1.profile_id, r.2.2.isNone, r.1.events.length))
      = some (none, true, 1) := by
  refine ⟨rfl, rfl, rfl, ?_⟩
  decide

/-- C6 amended: the track route never requires a profile identifier:
whenever the event type is valid and no identifier is present and
non-empty, the call unconditionally succeeds, appending the event with
a null profile id and returning no profile — there is no
allowAnonymousEvent flag and no MissingIdentifier error on this path. -/
theorem C6_anonymous_track_amended (now : ℚ) (s : Store) (inp : TrackInput) (et : String)
    (htype : inp.event_type = some et) (hne : isNonEmptyString (some et) = true)
    (hu : isNonEmptyString inp.user_id = false)
    (he : isNonEmptyString inp.email = false)
    (ha : isNonEmptyString inp.anonymous_id = false) :
    ∃ ev, track now s inp
        = .ok ({ s with events := ev :: s.events, nextEventId := s.nextEventId + 1 }, ev, none) ∧
      ev.profile_id = none ∧ ev.event_type = et ∧
      ev.occurred_at = inp.occurred_at.getD now := by
  have hres : resolveProfile s inp.user_id inp.email inp.anonymous_id = none := by
    unfold resolveProfile
    rw [gatedLookup_none_of_empty _ _ _ hu, gatedLookup_none_of_empty _ _ _ he,
      gatedLookup_none_of_empty _ _ _ ha]
  have hroc : resolveOrCreate now s inp.user_id inp.email inp.anonymous_id = .ok (s, none) := by
    unfold resolveOrCreate
    rw [hres]
    simp [hu, he, ha]
  unfold track
  rw [htype]
  simp only [hne, Bool.not_true, Bool.false_eq_true, if_false, hroc]
  exact ⟨_, rfl, rfl, rfl, rfl⟩

/-- C6 amended witness: the identifier-free page view request succeeds
with a null profile id. -/
theorem C6_anonymous_track_amended_witness :
    ∃ ev, track 2 emptyStore c6In
        = .ok ({ emptyStore with
                   events := ev :: emptyStore.events,
                   nextEventId := emptyStore.nextEventId + 1 }, ev, none) ∧
      ev.profile_id = none ∧ ev.event_type = "page_view" ∧
      ev.occurred_at = c6In.occurred_at.getD 2 :=
  C6_anonymous_track_amended 2 emptyStore c6In "page_view" rfl (by decide) rfl rfl rfl

/-- A non-object payload coerces to the same (empty) bag as an absent
payload. -/
theorem coerceObjFields_nonobject (v : JsonVal) (h : isJsObject (some v) = false) :
    coerceObjFields (some v) = coerceObjFields none := by
  cases v
  case obj fs => simp [isJsObject] at h
  all_goals rfl

/-- The identify update function only sees the traits payload through
the object coercion. -/
theorem applyIdentifyUpdate_nonobject_traits (e u a : Option String) (v : JsonVal)
    (h : isJsObject (some v) = false) (now : ℚ) :
    applyIdentifyUpdate { email := e, user_id := u, anonymous_id := a, traits := some v } now
      = applyIdentifyUpdate { email := e, user_id := u, anonymous_id := a, traits := none } now := by
  funext pRead q
  unfold applyIdentifyUpdate
  rw [coerceObjFields_nonobject v h]

/-- C8 counterexample: a present non-object traits payload is not
rejected — the identify call succeeds and silently stores an empty
trait bag — and a definition object that does not parse to the
documented schema is accepted by audience creation, contradicting the
claim that a ValidationError is raised in exactly these cases. -/
theorem C8_validation_counterexample :
    isJsObject (some (JsonVal.str "oops")) = false ∧
    (identify 0 emptyStore c8In).toOption.isSome = true ∧
    (identify 0 emptyStore c8In).toOption.map (fun r => r.2.traits.length) = some 0 ∧
    (createAudience emptyStore c8AIn).toOption.isSome = true := by
  refine ⟨rfl, ?_, ?_, rfl⟩ <;> decide

/-- C8 amended: audience creation rejects exactly a missing/empty name
or a definition that is absent or not an object — any object passes
with no schema validation — and identify/track never reject a present
non-object traits/properties payload: they behave exactly as if the
payload were absent (silently defaulting it to an empty bag). -/
theorem C8_validation_amended :
    (∀ (s : Store) (inp : CreateAudienceInput),
      (createAudience s inp).toOption.isSome
        = (isNonEmptyString inp.name && isJsObject inp.definition)) ∧
    (∀ (now : ℚ) (s : Store) (e u a : Option String) (v : JsonVal),
      isJsObject (some v) = false →
      identify now s { email := e, user_id := u, anonymous_id := a, traits := some v }
        = identify now s { email := e, user_id := u, anonymous_id := a, traits := none }) ∧
    (∀ (now : ℚ) (s : Store) (et : Option String) (e u a : Option String)
        (v : JsonVal) (occ : Option ℚ),
      isJsObject (some v) = false →
      track now s { event_type := et, email := e, user_id := u, anonymous_id := a,
                    properties := some v, occurred_at := occ }
        = track now s { event_type := et, email := e, user_id := u, anonymous_id := a,
                        properties := none, occurred_at := occ }) := by
  refine ⟨?_, ?_, ?_⟩
  · intro s inp
    unfold createAudience
    rcases hn : isNonEmptyString inp.name with _ | _
    · simp [hn, Except.toOption]
    · rcases hd : inp.definition with _ | v
      · simp [hn, isJsObject, Except.toOption]
      · cases v <;> simp [hn, isJsObject, Except.toOption]
  · intro now s e u a v h
    unfold identify
    simp only []
    rw [coerceObjFields_nonobject v h, applyIdentifyUpdate_nonobject_traits e u a v h now]
  · intro now s et e u a v occ h
    unfold track
    simp only []
    rw [coerceObjFields_nonobject v h]

/-- C8 amended witness: the malformed-schema audience is accepted, and
the string-traits identify and string-properties track calls behave as
if the payload were absent. -/
theorem C8_validation_amended_witness :
    (createAudience emptyStore c8AIn).toOption.isSome
      = (isNonEmptyString c8AIn.name && isJsObject c8AIn.definition) ∧
    identify 0 emptyStore
        { email := none, user_id := some "u1", anonymous_id := none
          traits := some (.str "oops") }
      = identify 0 emptyStore
        { email := none, user_id := some "u1", anonymous_id := none, traits := none } ∧
    track 0 emptyStore
        { event_type := some "pv", email := none, user_id := some "u1"
          anonymous_id := none, properties := some (.str "oops"), occurred_at := none }
      = track 0 emptyStore
        { event_type := some "pv", email := none, user_id := some "u1"
          anonymous_id := none, properties := none, occurred_at := none } :=
  ⟨C8_validation_amended.1 emptyStore c8AIn,
   C8_validation_amended.2.1 0 emptyStore none (some "u1") none (.str "oops") (by decide),
   C8_validation_amended.2.2 0 emptyStore (some "pv") none (some "u1") none
     (.str "oops") none (by decide)⟩

/-- A successful profile insert appends exactly the new row. -/
theorem insertProfile_ok (s : Store) (primary em uid anon : Option String)
    (traits : List (String × JsonVal)) (now : ℚ) (s' : Store) (p : Profile)
    (h : insertProfile s primary em uid anon traits now = .ok (s', p)) :
    s'.profiles = s.profiles ++ [p] := by
  unfold insertProfile at h
  split at h
  · exact absurd h (by simp)
  · rw [Except.ok.injEq, Prod.mk.injEq] at h
    obtain ⟨hs, hp⟩ := h
    rw [← hs, ← hp]

/-- The resolution phase of track either leaves the profile table
unchanged or appends one new row. -/
theorem resolveOrCreate_profiles (now : ℚ) (s : Store) (u e a : Option String)
    (s₁ : Store) (po : Option Profile)
    (h : resolveOrCreate now s u e a = .ok (s₁, po)) :
    s₁.profiles = s.profiles ∨ ∃ np, s₁.profiles = s.profiles ++ [np] := by
  unfold resolveOrCreate at h
  rcases hres : resolveProfile s u e a with _ | p
  · rw [hres] at h
    simp only [] at h
    split at h
    · rcases hins : insertProfile s (firstNonEmpty u e a) (normId e) (normId u)
        (normId a) [] now with _ | ⟨s₂, q⟩
      · rw [hins] at h
        exact absurd h (by simp)
      · rw [hins] at h
        simp only [Except.ok.injEq, Prod.mk.injEq] at h
        obtain ⟨hs, -⟩ := h
        right
        exact ⟨q, by rw [← hs, insertProfile_ok s _ _ _ _ _ now s₂ q hins]⟩
    · simp only [Except.ok.injEq, Prod.mk.injEq] at h
      obtain ⟨hs, -⟩ := h
      left
      rw [← hs]
  · rw [hres] at h
    simp only [Except.ok.injEq, Prod.mk.injEq] at h
    obtain ⟨hs, -⟩ := h
    left
    rw [← hs]

/-- A successful identify either appends the created row or updates the
resolved row in place with the identify update function. -/
theorem identify_ok_shape (now : ℚ) (s : Store) (i : IdentifyInput)
    (s' : Store) (p' : Profile) (h : identify now s i = .ok (s', p')) :
    s'.profiles = s.profiles ++ [p'] ∨
    ∃ p₀, resolveProfile s i.user_id i.email i.anonymous_id = some p₀ ∧
      s'.profiles = replaceProfileWith s.profiles p₀.pid (applyIdentifyUpdate i now p₀) ∧
      p' = applyIdentifyUpdate i now p₀ p₀ := by
  unfold identify at h
  split at h
  · exact absurd h (by simp)
  · rcases hres : resolveProfile s i.user_id i.email i.anonymous_id with _ | p₀
    · rw [hres] at h
      simp only [] at h
      rcases hins : insertProfile s (firstNonEmpty i.user_id i.email i.anonymous_id)
          (normId i.email) (normId i.user_id) (normId i.anonymous_id)
          (coerceObjFields i.traits) now with _ | ⟨s₂, q⟩
      · rw [hins] at h
        exact absurd h (by simp)
      · rw [hins] at h
        simp only [Except.ok.injEq, Prod.mk.injEq] at h
        obtain ⟨hs, hq⟩ := h
        left
        rw [← hs, ← hq]
        exact insertProfile_ok s _ _ _ _ _ now s₂ q hins
    · rw [hres] at h
      simp only [] at h
      split at h
      · exact absurd h (by simp)
      · simp only [Except.ok.injEq, Prod.mk.injEq] at h
        obtain ⟨hs, hp'⟩ := h
        right
        exact ⟨p₀, rfl, by rw [← hs], hp'.symm⟩

/-- A successful track leaves the profile table as it was after
resolution, or updates the matched row with a function that keeps the
row id and never lowers last_seen_at. -/
theorem track_ok_shape (now : ℚ) (s : Store) (i : TrackInput)
    (s' : Store) (ev : Event) (po : Option Profile)
    (h : track now s i = .ok (s', ev, po)) :
    ∃ base, (base = s.profiles ∨ ∃ np, base = s.profiles ++ [np]) ∧
      (s'.profiles = base ∨
        ∃ t f, (∀ q, (f q).pid = q.pid) ∧
          (∀ q, q.last_seen_at ≤ (f q).last_seen_at) ∧
          s'.profiles = replaceProfileWith base t f) := by
  unfold track at h
  rcases het : i.event_type with _ | et
  · rw [het] at h
    exact absurd h (by simp)
  · rw [het] at h
    simp only [] at h
    split at h
    · exact absurd h (by simp)
    · rcases hroc : resolveOrCreate now s i.user_id i.email i.anonymous_id
        with _ | ⟨s₁, pOpt⟩
      · rw [hroc] at h
        exact absurd h (by simp)
      · rw [hroc] at h
        simp only [] at h
        refine ⟨s₁.profiles, resolveOrCreate_profiles now s i.user_id i.email i.anonymous_id s₁ pOpt hroc, ?_⟩
        rcases pOpt with _ | p₀
        · simp only [Except.ok.injEq, Prod.mk.injEq] at h
          obtain ⟨hs, -⟩ := h
          left
          rw [← hs]
        · simp only [] at h
          split at h
          · rcases ha : amountOf (coerceObjFields i.properties) with _ | amount
            · rw [ha] at h
              simp only [Except.ok.injEq, Prod.mk.injEq] at h
              obtain ⟨hs, -⟩ := h
              right
              exact ⟨p₀.pid, touchProfile (i.occurred_at.getD now),
                fun q => rfl, fun q => le_max_left _ _, by rw [← hs]⟩
            · rw [ha] at h
              simp only [] at h
              split at h
              · simp only [Except.ok.injEq, Prod.mk.injEq] at h
                obtain ⟨hs, -⟩ := h
                right
                exact ⟨p₀.pid, creditPurchase amount (i.occurred_at.getD now),
                  fun q => rfl, fun q => le_max_left _ _, by rw [← hs]⟩
              · simp only [Except.ok.injEq, Prod.mk.injEq] at h
                obtain ⟨hs, -⟩ := h
                right
                exact ⟨p₀.pid, touchProfile (i.occurred_at.getD now),
                  fun q => rfl, fun q => le_max_left _ _, by rw [← hs]⟩
          · simp only [Except.ok.injEq, Prod.mk.injEq] at h
            obtain ⟨hs, -⟩ := h
            right
            exact ⟨p₀.pid, touchProfile (i.occurred_at.getD now),
              fun q => rfl, fun q => le_max_left _ _, by rw [← hs]⟩

/-- A lookup that succeeds on a table still succeeds unchanged after
rows are appended on the right. -/
theorem find?_append_left (l l₂ : List Profile) (pred : Profile → Bool)
    (p : Profile) (h : l.find? pred = some p) : (l ++ l₂).find? pred = some p := by
  rw [List.find?_append, h]
  rfl

/-- C5 counterexample: a page view tracked at time 0 with caller
timestamp 99 advances the profile's last_seen_at to 99, but an
identify call at time 1 then sets it back to 1 — the identify route
writes NOW() without GREATEST, so last_seen_at is not monotonically
non-decreasing under arbitrary caller-supplied timestamps. -/
theorem C5_last_seen_counterexample :
    (profileById c5S1 0).map Profile.last_seen_at = some 99 ∧
    (profileById c5S2 0).map Profile.last_seen_at = some 1 ∧
    (1 : ℚ) < 99 := by
  refine ⟨?_, ?_, by norm_num⟩ <;> decide

/-- C5 amended: a track operation never lowers any profile's
last_seen_at (it writes GREATEST(last_seen_at, occurred_at)); an
identify operation writes the current time, so it preserves
monotonicity exactly when no stored last_seen_at already lies in the
future of the clock — which arbitrary caller-supplied event timestamps
can violate. -/
theorem C5_last_seen_amended (now : ℚ) (s : Store) (op : Op)
    (hid : op.isIdentify = true → ∀ p ∈ s.profiles, p.last_seen_at ≤ now) :
    ∀ pid p p', profileById s pid = some p →
      profileById (applyOp now s op) pid = some p' →
      p.last_seen_at ≤ p'.last_seen_at := by
  intro pid p p' hp hp'
  cases op with
  | trackOp i =>
    unfold applyOp at hp'
    simp only [] at hp'
    rcases hok : track now s i with _ | ⟨s', ev, po⟩
    · rw [hok] at hp'
      try simp only [] at hp'
      exact le_of_eq (congrArg Profile.last_seen_at (Option.some.inj (hp.symm.trans hp')))
    · rw [hok] at hp'
      try simp only [] at hp'
      obtain ⟨base, hbase, hfin⟩ := track_ok_shape now s i s' ev po hok
      unfold profileById at hp hp'
      have hpbase : base.find? (fun x => x.pid == pid) = some p := by
        rcases hbase with h1 | ⟨np, h1⟩
        · rw [h1]
          exact hp
        · rw [h1]
          exact find?_append_left _ _ _ _ hp
      rcases hfin with h2 | ⟨t, f, hpid, hmono, h2⟩
      · rw [h2, hpbase] at hp'
        exact le_of_eq (congrArg Profile.last_seen_at (Option.some.inj hp'))
      · rw [h2, find?_replaceProfileWith base t f _ (fun q => by rw [hpid q]), hpbase] at hp'
        have h3 : (if p.pid == t then f p else p) = p' := Option.some.inj hp'
        by_cases hc : p.pid = t
        · rw [if_pos (by simp [hc])] at h3
          rw [← h3]
          exact hmono p
        · rw [if_neg (by simp [hc])] at h3
          exact le_of_eq (congrArg Profile.last_seen_at h3)
  | identifyOp i =>
    unfold applyOp at hp'
    simp only [] at hp'
    rcases hok : identify now s i with _ | ⟨s', q⟩
    · rw [hok] at hp'
      try simp only [] at hp'
      exact le_of_eq (congrArg Profile.last_seen_at (Option.some.inj (hp.symm.trans hp')))
    · rw [hok] at hp'
      try simp only [] at hp'
      rcases identify_ok_shape now s i s' q hok with hcr | ⟨p₀, hres, hrepl, hq⟩
      · unfold profileById at hp hp'
        rw [hcr, find?_append_left _ _ _ _ hp] at hp'
        exact le_of_eq (congrArg Profile.last_seen_at (Option.some.inj hp'))
      · unfold profileById at hp hp'
        rw [hrepl, find?_replaceProfileWith s.profiles p₀.pid (applyIdentifyUpdate i now p₀)
          (fun x => x.pid == pid) (fun r => rfl), hp] at hp'
        have h3 : (if p.pid == p₀.pid then applyIdentifyUpdate i now p₀ p else p) = p'
          := Option.some.inj hp'
        by_cases hc : p.pid = p₀.pid
        · rw [if_pos (by simp [hc])] at h3
          rw [← h3]
          exact hid rfl p (List.mem_of_find?_eq_some hp)
        · rw [if_neg (by simp [hc])] at h3
          exact le_of_eq (congrArg Profile.last_seen_at h3)

/-- C5 amended witness: at time 100, with every stored last_seen_at in
the past, the identify update does not lower the profile's
last_seen_at. -/
theorem C5_last_seen_amended_witness :
    c5P1.last_seen_at ≤ (applyIdentifyUpdate c5Id 100 c5P1 c5P1).last_seen_at :=
  C5_last_seen_amended 100 c5S1 (.identifyOp c5Id) (fun _ => by decide) 0 c5P1
    (applyIdentifyUpdate c5Id 100 c5P1 c5P1) rfl rfl

/-- A cutoff test on an optional maximum holds exactly when the
maximum exists and passes. -/
theorem match_ge_iff (o : Option ℚ) (c : ℚ) :
    (match o with | some t => decide (c ≤ t) | none => false) = true ↔
      ∃ t, o = some t ∧ c ≤ t := by
  rcases o with _ | t <;> simp

/-- The maximum of a list is at least a bound exactly when some element
is. -/
theorem listMax_some_ge (l : List ℚ) (c : ℚ) :
    (∃ t, listMax l = some t ∧ c ≤ t) ↔ ∃ x ∈ l, c ≤ x := by
  induction l with
  | nil => simp [listMax]
  | cons x xs ih =>
    unfold listMax
    rcases hm : listMax xs with _ | m
    · rw [hm] at ih
      simp only [List.mem_cons]
      constructor
      · rintro ⟨t, ht, hct⟩
        refine ⟨x, Or.inl rfl, ?_⟩
        rw [← Option.some.inj ht] at hct
        exact hct
      · rintro ⟨y, hy | hy, hcy⟩
        · subst hy
          exact ⟨y, rfl, hcy⟩
        · obtain ⟨t, ht, -⟩ := ih.2 ⟨y, hy, hcy⟩
          exact absurd ht (by simp)
    · rw [hm] at ih
      simp only [List.mem_cons]
      constructor
      · rintro ⟨t, ht, hct⟩
        rw [← Option.some.inj ht] at hct
        rcases le_max_iff.1 hct with h | h
        · exact ⟨x, Or.inl rfl, h⟩
        · obtain ⟨y, hy, hcy⟩ := ih.1 ⟨m, rfl, h⟩
          exact ⟨y, Or.inr hy, hcy⟩
      · rintro ⟨y, hy | hy, hcy⟩
        · subst hy
          exact ⟨max y m, rfl, le_max_of_le_left hcy⟩
        · obtain ⟨t, ht, hct⟩ := ih.2 ⟨y, hy, hcy⟩
          refine ⟨max x m, rfl, le_max_of_le_right ?_⟩
          rw [Option.some.inj ht]
          exact hct

/-- A profile qualifies for a rebuild exactly when its spend passes the
threshold and some of its events lies at or after the cutoff. -/
theorem qualifies_iff (evs : List Event) (minSpend : Option ℚ) (cutoff : ℚ) (p : Profile) :
    qualifies evs minSpend cutoff p = true ↔
      spendMeets p.total_spend minSpend = true ∧
        ∃ ev ∈ evs, ev.profile_id = some p.pid ∧ cutoff ≤ ev.occurred_at := by
  unfold qualifies
  rw [Bool.and_eq_true]
  refine and_congr_right fun _ => ?_
  rw [match_ge_iff]
  unfold lastEventAt
  rw [listMax_some_ge]
  constructor
  · rintro ⟨x, hx, hcx⟩
    obtain ⟨ev, hev, hocc⟩ := List.mem_map.1 hx
    obtain ⟨hmem, hpid⟩ := List.mem_filter.1 hev
    refine ⟨ev, hmem, by simpa using hpid, ?_⟩
    rw [hocc]
    exact hcx
  · rintro ⟨ev, hmem, hpid, hocc⟩
    exact ⟨ev.occurred_at,
      List.mem_map.2 ⟨ev, List.mem_filter.2 ⟨hmem, by simpa using hpid⟩, rfl⟩, hocc⟩

/-- After the delete-then-insert swap, the audience's member ids are
exactly the freshly computed ones. -/
theorem membersOf_replace (ms : List (Nat × Nat × ℚ)) (aid : Nat)
    (news : List Profile) (now : ℚ) :
    ((ms.filter (fun m => m.1 != aid) ++ news.map (fun p => (aid, p.pid, now))).filter
        (fun m => m.1 == aid)).map (fun m => m.2.1)
      = news.map Profile.pid := by
  rw [List.filter_append]
  have h1 : (ms.filter (fun m => m.1 != aid)).filter (fun m => m.1 == aid) = [] := by
    rw [List.filter_eq_nil_iff]
    intro m hm
    have := (List.mem_filter.1 hm).2
    simp only [bne_iff_ne, ne_eq] at this
    simp [this]
  have h2 : (news.map (fun p => (aid, p.pid, now))).filter (fun m => m.1 == aid)
      = news.map (fun p => (aid, p.pid, now)) := by
    rw [List.filter_eq_self]
    intro m hm
    obtain ⟨p, -, hp⟩ := List.mem_map.1 hm
    rw [← hp]
    simp
  rw [h1, h2, List.nil_append, List.map_map]
  rfl

/-- Rebuilding with a parseable day count succeeds and swaps in exactly
the computed member set, touching neither profiles nor events and only
stamping the audience's last_built_at. -/
theorem rebuild_members (now : ℚ) (s : Store) (aid : Nat) (a : Audience)
    (hfind : findAudience s aid = some a) (d : ℚ)
    (hd : jsNumber (jsOr (lookupField (defFields a.definition) "days_since_last_event")
        (.num 36500)) = some d) :
    ∃ s', rebuildAudience now s aid
        = .ok (s', (s.profiles.filter (qualifies s.events
            (jsNumber (jsOr (lookupField (defFields a.definition) "min_total_spend") (.num 0)))
            (now - d * 86400000))).length) ∧
      membersOf s' aid = (s.profiles.filter (qualifies s.events
          (jsNumber (jsOr (lookupField (defFields a.definition) "min_total_spend") (.num 0)))
          (now - d * 86400000))).map Profile.pid ∧
      s'.profiles = s.profiles ∧ s'.events = s.events ∧
      findAudience s' aid = some { a with last_built_at := some now } := by
  unfold rebuildAudience
  rw [hfind]
  simp only [hd]
  refine ⟨_, rfl, ?_, rfl, rfl, ?_⟩
  · unfold membersOf
    exact membersOf_replace s.members aid _ now
  · unfold findAudience
    rw [List.find?_map]
    have hpred : ((fun (b : Audience) => b.aid == aid) ∘ (fun (b : Audience) =>
        if b.aid == aid then { b with last_built_at := some now } else b))
          = fun (b : Audience) => b.aid == aid := by
      funext b
      by_cases hb : b.aid = aid
      · simp [hb]
      · simp [hb]
    rw [hpred]
    unfold findAudience at hfind
    rw [hfind]
    have haid : (a.aid == aid) = true := by
      have h := List.find?_some hfind
      simpa using h
    simp [haid]
    intro hne
    exact absurd (by simpa using haid) hne

/-- A successful rebuild exposes the audience row and a parseable day
count. -/
theorem rebuild_ok_inv (now : ℚ) (s : Store) (aid : Nat) (s' : Store) (n : Nat)
    (h : rebuildAudience now s aid = .ok (s', n)) :
    ∃ a, findAudience s aid = some a ∧
      ∃ d, jsNumber (jsOr (lookupField (defFields a.definition) "days_since_last_event")
        (.num 36500)) = some d := by
  unfold rebuildAudience at h
  rcases hf : findAudience s aid with _ | a
  · rw [hf] at h
    exact absurd h (by simp)
  · rw [hf] at h
    simp only [] at h
    rcases hd : jsNumber (jsOr (lookupField (defFields a.definition) "days_since_last_event")
        (.num 36500)) with _ | d
    · rw [hd] at h
      exact absurd h (by simp)
    · exact ⟨a, rfl, d, hd⟩

/-- C2 counterexample: an audience definition that supplies
days_since_last_event = 0 should (per the claim) admit only profiles
with an event at or after the evaluation instant; the rebuild instead
replaces the falsy 0 by the 36500-day default and admits a profile
whose only event is a full day old. -/
theorem C2_rebuild_zero_days_counterexample :
    lookupField (defFields c2A.definition) "days_since_last_event" = some (.num 0) ∧
    (∃ s', rebuildAudience c2Now c2S 1 = .ok (s', 1) ∧ 0 ∈ membersOf s' 1) ∧
    ¬ ∃ ev ∈ c2S.events, ev.profile_id = some 0 ∧
      c2Now - 0 * 86400000 ≤ ev.occurred_at := by
  refine ⟨rfl, ?_, ?_⟩
  · obtain ⟨s', hok, hmem, -, -, -⟩ :=
      rebuild_members c2Now c2S 1 c2A rfl 36500 rfl
    have hq : qualifies c2S.events
        (jsNumber (jsOr (lookupField (defFields c2A.definition) "min_total_spend") (.num 0)))
        (c2Now - 36500 * 86400000) c2P = true := by
      refine (qualifies_iff _ _ _ _).2 ⟨by decide, c2E, by simp [c2S], rfl, ?_⟩
      show c2Now - 36500 * 86400000 ≤ c2Now - 86400000
      unfold c2Now
      norm_num
    have hfilter : c2S.profiles.filter (qualifies c2S.events
        (jsNumber (jsOr (lookupField (defFields c2A.definition) "min_total_spend") (.num 0)))
        (c2Now - 36500 * 86400000)) = [c2P] := by
      show List.filter _ [c2P] = [c2P]
      rw [List.filter_cons_of_pos hq]
      rfl
    rw [hfilter] at hok hmem
    exact ⟨s', hok, by rw [hmem]; exact List.mem_singleton.2 rfl⟩
  · rintro ⟨ev, hev, -, hocc⟩
    have : ev = c2E := by
      simpa [c2S] using hev
    rw [this] at hocc
    have : c2Now - 0 * 86400000 ≤ c2Now - 86400000 := hocc
    unfold c2Now at this
    norm_num at this

/-- C2 amended: rebuild membership is exactly the profiles whose spend
meets the threshold and which own an event inside the recency window;
a missing day count defaults to 36500 days, but so does a supplied 0
(any falsy value), because the route reads it with a JavaScript
or-default; a supplied nonzero day count and any supplied numeric
minimum spend are used as given (a missing minimum defaults to 0); a
profile with no events is never a member. -/
theorem C2_rebuild_membership_amended (now : ℚ) (s : Store) (aid : Nat) (a : Audience)
    (hfind : findAudience s aid = some a) :
    (lookupField (defFields a.definition) "days_since_last_event" = none →
      jsNumber (jsOr (lookupField (defFields a.definition) "days_since_last_event")
        (.num 36500)) = some 36500) ∧
    (lookupField (defFields a.definition) "days_since_last_event" = some (.num 0) →
      jsNumber (jsOr (lookupField (defFields a.definition) "days_since_last_event")
        (.num 36500)) = some 36500) ∧
    (∀ d : ℚ, d ≠ 0 →
      lookupField (defFields a.definition) "days_since_last_event" = some (.num d) →
      jsNumber (jsOr (lookupField (defFields a.definition) "days_since_last_event")
        (.num 36500)) = some d) ∧
    (lookupField (defFields a.definition) "min_total_spend" = none →
      jsNumber (jsOr (lookupField (defFields a.definition) "min_total_spend")
        (.num 0)) = some 0) ∧
    (∀ m : ℚ, lookupField (defFields a.definition) "min_total_spend" = some (.num m) →
      jsNumber (jsOr (lookupField (defFields a.definition) "min_total_spend")
        (.num 0)) = some m) ∧
    (∀ d m : ℚ,
      jsNumber (jsOr (lookupField (defFields a.definition) "days_since_last_event")
        (.num 36500)) = some d →
      jsNumber (jsOr (lookupField (defFields a.definition) "min_total_spend")
        (.num 0)) = some m →
      ∃ s' n, rebuildAudience now s aid = .ok (s', n) ∧
        (∀ pid, pid ∈ membersOf s' aid ↔
          ∃ p ∈ s.profiles, p.pid = pid ∧ m ≤ p.total_spend ∧
            ∃ ev ∈ s.events, ev.profile_id = some p.pid ∧
              now - d * 86400000 ≤ ev.occurred_at) ∧
        (∀ pid, (∀ ev ∈ s.events, ev.profile_id ≠ some pid) →
          pid ∉ membersOf s' aid)) := by
  refine ⟨?_, ?_, ?_, ?_, ?_, ?_⟩
  · intro h
    rw [h]
    rfl
  · intro h
    rw [h]
    rfl
  · intro d hd0 h
    rw [h]
    simp [jsOr, jsTruthy, jsNumber, hd0]
  · intro h
    rw [h]
    rfl
  · intro m h
    rw [h]
    by_cases hm : m = 0
    · subst hm
      rfl
    · simp [jsOr, jsTruthy, jsNumber, hm]
  · intro d m hd hm
    obtain ⟨s', hok, hmem, hprof, hev, hfa⟩ := rebuild_members now s aid a hfind d hd
    have hiff : ∀ pid, pid ∈ membersOf s' aid ↔
        ∃ p ∈ s.profiles, p.pid = pid ∧ m ≤ p.total_spend ∧
          ∃ ev ∈ s.events, ev.profile_id = some p.pid ∧
            now - d * 86400000 ≤ ev.occurred_at := by
      intro pid
      rw [hmem]
      constructor
      · intro hpidmem
        obtain ⟨p, hpfilter, hppid⟩ := List.mem_map.1 hpidmem
        obtain ⟨hpmem, hq⟩ := List.mem_filter.1 hpfilter
        rw [hm] at hq
        obtain ⟨hspend, ev, hevmem, hevpid, hevocc⟩ := (qualifies_iff _ _ _ _).1 hq
        simp only [spendMeets, decide_eq_true_eq] at hspend
        exact ⟨p, hpmem, hppid, hspend, ev, hevmem, hevpid, hevocc⟩
      · rintro ⟨p, hpmem, hppid, hspend, ev, hevmem, hevpid, hevocc⟩
        refine List.mem_map.2 ⟨p, List.mem_filter.2 ⟨hpmem, ?_⟩, hppid⟩
        rw [hm]
        exact (qualifies_iff _ _ _ _).2
          ⟨by simp [spendMeets, hspend], ev, hevmem, hevpid, hevocc⟩
    refine ⟨s', _, hok, hiff, ?_⟩
    intro pid hnone hmem'
    obtain ⟨p, -, hppid, -, ev, hevmem, hevpid, -⟩ := (hiff pid).1 hmem'
    exact hnone ev hevmem (by rw [hevpid, hppid])

/-- C2 amended witness: with min_total_spend 50 and
days_since_last_event 30, the spend-100 profile with a one-day-old
event is exactly the member set. -/
theorem C2_rebuild_membership_amended_witness :
    ∃ s' n, rebuildAudience c2Now c2WS 1 = .ok (s', n) ∧
      (∀ pid, pid ∈ membersOf s' 1 ↔
        ∃ p ∈ c2WS.profiles, p.pid = pid ∧ (50 : ℚ) ≤ p.total_spend ∧
          ∃ ev ∈ c2WS.events, ev.profile_id = some p.pid ∧
            c2Now - 30 * 86400000 ≤ ev.occurred_at) ∧
      (∀ pid, (∀ ev ∈ c2WS.events, ev.profile_id ≠ some pid) →
        pid ∉ membersOf s' 1) :=
  (C2_rebuild_membership_amended c2Now c2WS 1 c2WA rfl).2.2.2.2.2 30 50
    (by decide) (by decide)

/-- C9: rebuilding wholly replaces the audience's membership (the
resulting member set does not depend on the previous membership rows),
and rebuilding again at the same evaluation instant with unchanged
profile and event data reproduces the identical member-id set and
count. -/
theorem C9_rebuild_idempotent (now : ℚ) (s : Store) (aid : Nat) (s' : Store) (n : Nat)
    (h : rebuildAudience now s aid = .ok (s', n)) :
    (∀ ms : List (Nat × Nat × ℚ), ∃ s₀ n₀,
        rebuildAudience now { s with members := ms } aid = .ok (s₀, n₀) ∧
        membersOf s₀ aid = membersOf s' aid ∧ n₀ = n) ∧
    (∃ s'' n', rebuildAudience now s' aid = .ok (s'', n') ∧
        membersOf s'' aid = membersOf s' aid ∧ n' = n) := by
  obtain ⟨a, hfind, d, hd⟩ := rebuild_ok_inv now s aid s' n h
  obtain ⟨S, hok, hmem, hprof, hev, hfa⟩ := rebuild_members now s aid a hfind d hd
  rw [h] at hok
  simp only [Except.ok.injEq, Prod.mk.injEq] at hok
  obtain ⟨hS, hn⟩ := hok
  subst hS
  constructor
  · intro ms
    have hfind' : findAudience { s with members := ms } aid = some a := hfind
    obtain ⟨S₀, hok₀, hmem₀, -, -, -⟩ :=
      rebuild_members now { s with members := ms } aid a hfind' d hd
    refine ⟨S₀, _, hok₀, ?_, ?_⟩
    · rw [hmem₀, hmem]
    · rw [hn]
  · have hd' : jsNumber (jsOr (lookupField
        (defFields ({ a with last_built_at := some now } : Audience).definition)
        "days_since_last_event") (.num 36500)) = some d := hd
    obtain ⟨S'', hok'', hmem'', -, -, -⟩ :=
      rebuild_members now s' aid { a with last_built_at := some now } hfa d hd'
    refine ⟨S'', _, hok'', ?_, ?_⟩
    · rw [hmem'', hprof, hev, hmem]
    · rw [hn, hprof, hev]

/-- C9 witness: the well-formed audience rebuild run twice at the same
instant yields identical membership and count. -/
theorem C9_rebuild_idempotent_witness :
    ∃ s' n, rebuildAudience c2Now c2WS 1 = .ok (s', n) ∧
      ∃ s'' n', rebuildAudience c2Now s' 1 = .ok (s'', n') ∧
        membersOf s'' 1 = membersOf s' 1 ∧ n' = n := by
  obtain ⟨s', hok, -, -, -, -⟩ :=
    rebuild_members c2Now c2WS 1 c2WA rfl 30 (by decide)
  exact ⟨s', _, hok, (C9_rebuild_idempotent c2Now c2WS 1 s' _ hok).2⟩

/-- C7 counterexample: in the create race, the losing identify
transaction ends in a rolled-back conflict (HTTP 500) even though
re-resolving the email as a lookup would succeed on the final store —
the conflict is surfaced to the caller, not recovered by an internal
retry, contradicting the claim that recovery is transparent on
success. -/
theorem C7_no_internal_retry_counterexample :
    Phase.isConflict (raceRun 0 "x@y" [.one, .two, .one, .two] raceInit).t2 = true ∧
    (raceRun 0 "x@y" [.one, .two, .one, .two] raceInit).store.profiles.length = 1 ∧
    (findByEmail (raceRun 0 "x@y" [.one, .two, .one, .two] raceInit).store "x@y").isSome
      = true := by
  refine ⟨?_, ?_, ?_⟩ <;> decide

/-- C7 amended: an identify call whose update collides with the unique
constraints rolls back and surfaces an internal error to the caller;
the conflict is not silently dropped, but the route performs no
internal re-resolution or retry — recovery is left to the caller. -/
theorem C7_conflict_surfaced_amended (now : ℚ) (s : Store) (inp : IdentifyInput)
    (p : Profile)
    (hids : (isNonEmptyString inp.email || isNonEmptyString inp.user_id
        || isNonEmptyString inp.anonymous_id) = true)
    (hres : resolveProfile s inp.user_id inp.email inp.anonymous_id = some p)
    (hconf : violatesUniqueUpdate s.profiles p.pid
        (applyIdentifyUpdate inp now p p).email
        (applyIdentifyUpdate inp now p p).user_id = true) :
    identify now s inp = .error .internalError := by
  unfold identify
  simp only [hids, Bool.not_true, Bool.false_eq_true, if_false]
  rw [hres]
  simp [hconf]

/-- C7 amended witness: supplying u2's email while matching u1's
profile hits the unique constraint and the call fails with the
internal error. -/
theorem C7_conflict_surfaced_amended_witness :
    identify 3 c7S c7In = .error .internalError :=
  C7_conflict_surfaced_amended 3 c7S c7In c7P1 (by decide) rfl (by decide)

/-- C10: for every complete interleaving of two concurrent identify
calls that carry the same new non-empty email against an empty store,
the unique constraint lets exactly one profile exist afterwards — the
check-then-act race cannot create a duplicate — and both transactions
finish (the loser, if any, with a conflict rather than a second row). -/
theorem C10_concurrent_identify_single_profile (now : ℚ) (e : String)
    (he : isNonEmptyString (some e) = true)
    (sched : List RaceStep) (hs : validSchedule sched) :
    (raceRun now e sched raceInit).store.profiles.length = 1 ∧
    countEmail (raceRun now e sched raceInit).store e = 1 ∧
    Phase.isDone (raceRun now e sched raceInit).t1 = true ∧
    Phase.isDone (raceRun now e sched raceInit).t2 = true := by
  obtain ⟨hlen, hcnt⟩ := hs
  rcases sched with _ | ⟨a, sched⟩
  · simp at hlen
  rcases sched with _ | ⟨b, sched⟩
  · simp at hlen
  rcases sched with _ | ⟨c, sched⟩
  · simp at hlen
  rcases sched with _ | ⟨d, sched⟩
  · simp at hlen
  rcases sched with _ | ⟨x, sched⟩
  case cons => simp at hlen
  cases a <;> cases b <;> cases c <;> cases d <;>
    (refine ⟨?_, ?_, ?_, ?_⟩ <;>
      simp [raceRun, raceStep, raceTxnStep, raceInit, raceInput, emptyStore,
        resolveProfile, gatedLookup, findByEmail, findByUserId, findByAnonymousId,
        insertProfile, violatesUniqueInsert, violatesUniqueUpdate, mkNewProfile,
        replaceProfileWith, applyIdentifyUpdate, coalesce, normId, firstNonEmpty,
        coerceObjFields, countEmail, Phase.isDone, mergeTraits, he] <;>
      simp [countOnes] at hcnt)

/-- C10 witness: the serial schedule for the email a@b ends with one
profile, one owner of the email, and both calls finished. -/
theorem C10_concurrent_identify_single_profile_witness :
    (raceRun 0 "a@b" [.one, .one, .two, .two] raceInit).store.profiles.length = 1 ∧
    countEmail (raceRun 0 "a@b" [.one, .one, .two, .two] raceInit).store "a@b" = 1 ∧
    Phase.isDone (raceRun 0 "a@b" [.one, .one, .two, .two] raceInit).t1 = true ∧
    Phase.isDone (raceRun 0 "a@b" [.one, .one, .two, .two] raceInit).t2 = true :=
  C10_concurrent_identify_single_profile 0 "a@b" (by decide)
    [.one, .one, .two, .two] ⟨rfl, rfl⟩

/-- C1 witness: a purchase of 59.99 for the fresh user u7 creates the
profile, appends the event, and credits the aggregates. -/
theorem C1_track_purchase_aggregate_witness :
    ∃ s' ev p', track 3 emptyStore c1Input = .ok (s', ev, some p') ∧
      s'.events = ev :: c1S1.events ∧
      ev.event_type = "Purchase" ∧
      ev.profile_id = some c1P.pid ∧
      ev.properties = coerceObjFields c1Input.properties ∧
      (purchaseCredited "Purchase" (coerceObjFields c1Input.properties) = true →
        ∃ amount, amountOf (coerceObjFields c1Input.properties) = some amount ∧ 0 < amount ∧
          p'.total_orders = c1P.total_orders + 1 ∧
          p'.total_spend = c1P.total_spend + amount) ∧
      (purchaseCredited "Purchase" (coerceObjFields c1Input.properties) = false →
        p'.total_orders = c1P.total_orders ∧ p'.total_spend = c1P.total_spend) ∧
      (c1P ∈ c1S1.profiles → p' ∈ s'.profiles) :=
  C1_track_purchase_aggregate 3 emptyStore c1Input "Purchase" c1S1 c1P rfl (by decide) rfl

end MiniCDP
